import Mathlib

/-!
Shallow embedding of the Wisp proxy server core (policy, resolver
initialisation, forwarders, unfair select) and proofs of the claimed
properties.  Definitions mirror `src/wisp/stream.rs`, `src/wisp/config.rs`,
`src/wisp/resolver.rs`, `src/wisp/handler.rs` and
`crates/wisp-mux/src/unfair_select.rs`.
-/

/-- An IPv4 address as four octets (Rust `std::net::Ipv4Addr`). -/
structure Ipv4Addr where
  a : Nat
  b : Nat
  c : Nat
  d : Nat
deriving DecidableEq, Repr

/-- Rust `Ipv4Addr::is_loopback`: the 127.0.0.0/8 block. -/
def Ipv4Addr.is_loopback (v : Ipv4Addr) : Bool :=
  v.a == 127

/-- Rust `Ipv4Addr::is_private`: 10.0.0.0/8, 172.16.0.0/12, 192.168.0.0/16. -/
def Ipv4Addr.rust_is_private (v : Ipv4Addr) : Bool :=
  v.a == 10 || (v.a == 172 && 16 ≤ v.b && v.b ≤ 31) || (v.a == 192 && v.b == 168)

/-- Rust `Ipv4Addr.is_link_local`: 169.254.0.0/16. -/
def Ipv4Addr.is_link_local (v : Ipv4Addr) : Bool :=
  v.a == 169 && v.b == 254

/-- An IPv6 address as eight 16-bit segments (Rust `std::net::Ipv6Addr`). -/
structure Ipv6Addr where
  s0 : Nat
  s1 : Nat
  s2 : Nat
  s3 : Nat
  s4 : Nat
  s5 : Nat
  s6 : Nat
  s7 : Nat
deriving DecidableEq, Repr

/-- Rust `Ipv6Addr::is_loopback`: the address `::1`. -/
def Ipv6Addr.is_loopback (v : Ipv6Addr) : Bool :=
  v.s0 == 0 && v.s1 == 0 && v.s2 == 0 && v.s3 == 0 &&
  v.s4 == 0 && v.s5 == 0 && v.s6 == 0 && v.s7 == 1

/-- An IP address, v4 or v6 (Rust `std::net::IpAddr`). -/
inductive IpAddr where
  | V4 (v : Ipv4Addr)
  | V6 (v : Ipv6Addr)
deriving DecidableEq, Repr

/-- Rust `IpAddr::is_loopback`: dispatch on the family. -/
def IpAddr.is_loopback : IpAddr → Bool
  | .V4 v => v.is_loopback
  | .V6 v => v.is_loopback

/-- `ipv4_is_private` from `src/wisp/stream.rs`. -/
def ipv4_is_private (addr : Ipv4Addr) : Bool :=
  addr.rust_is_private || addr.is_loopback || addr.is_link_local

/-- `ipv6_is_private` from `src/wisp/stream.rs`: loopback, unique local
(`(segments[0] & 0xfe00) == 0xfc00`) or link local
(`(segments[0] & 0xffc0) == 0xfe80`). -/
def ipv6_is_private (addr : Ipv6Addr) : Bool :=
  addr.is_loopback
    || (addr.s0 &&& 0xfe00) == 0xfc00
    || (addr.s0 &&& 0xffc0) == 0xfe80

/-- `is_private` from `src/wisp/stream.rs`. -/
def is_private : IpAddr → Bool
  | .V4 v4 => ipv4_is_private v4
  | .V6 v6 => ipv6_is_private v6

/-- A host string, represented by the outcome of `IpAddr::from_str` on it:
either it parses as an IP literal (the literal form of an address reparses
to that address) or it is a hostname that does not parse as an IP. -/
inductive Host where
  | ip (a : IpAddr)
  | name (s : String)
deriving DecidableEq, Repr

/-- `StreamType` of the wisp protocol (`wisp_mux::packet::StreamType`,
fields as used by `src/wisp/stream.rs` and spec section 3). -/
inductive StreamType where
  | Tcp
  | Udp
  | Other (v : Nat)
deriving DecidableEq, Repr

/-- `wisp_mux::packet::ConnectPacket` as used by `src/wisp/stream.rs`
(spec section 3 ConnectPayload): stream type, port and host. -/
structure ConnectPacket where
  stream_type : StreamType
  port : Nat
  host : Host
deriving DecidableEq, Repr

/-- A `dns_servers` entry, represented by the outcome of parsing it as an
IP address (`s.parse().ok()` in `src/wisp/resolver.rs`). -/
inductive DnsEntry where
  | ip (a : IpAddr)
  | invalid (s : String)
deriving DecidableEq, Repr

/-- `DnsEntry` parse outcome: `filter_map(|s| s.parse().ok())`. -/
def DnsEntry.parse : DnsEntry → Option IpAddr
  | .ip a => some a
  | .invalid _ => none

/-- `WispConfig` from `src/wisp/config.rs`.  `blocked_ports` is a list of
inclusive ranges given as (start, end) pairs. -/
structure WispConfig where
  allow_udp : Bool
  allow_tcp : Bool
  allow_loopback : Bool
  allow_private : Bool
  buffer_size : Nat
  blocked_ports : List (Nat × Nat)
  dns_servers : List DnsEntry
deriving DecidableEq, Repr

/-- `WispConfig::is_port_blocked`: some configured inclusive range
contains the port. -/
def WispConfig.is_port_blocked (cfg : WispConfig) (port : Nat) : Bool :=
  cfg.blocked_ports.any (fun range => range.1 ≤ port && port ≤ range.2)

/-- `impl Default for WispConfig` from `src/wisp/config.rs`. -/
def default_config : WispConfig :=
  { allow_udp := true
    allow_tcp := true
    allow_loopback := false
    allow_private := true
    buffer_size := 16384
    blocked_ports := [(22, 22), (25, 25), (587, 587)]
    dns_servers := [DnsEntry.ip (.V4 ⟨1, 1, 1, 1⟩), DnsEntry.ip (.V4 ⟨8, 8, 8, 8⟩)] }

/-- `ResolvedStream` from `src/wisp/stream.rs`. -/
inductive ResolvedStream where
  | Valid (p : ConnectPacket)
  | NoResolvedAddrs
  | Blocked
  | Invalid
deriving DecidableEq, Repr

/-- The stream-type check opening `resolve_packet`: TCP with
`allow_tcp = false` or UDP with `allow_udp = false` is `Blocked`,
`Other` is `Invalid`, otherwise the check passes (`none`). -/
def type_blocked (t : StreamType) (cfg : WispConfig) : Option ResolvedStream :=
  match t with
  | .Tcp => if !cfg.allow_tcp then some .Blocked else none
  | .Udp => if !cfg.allow_udp then some .Blocked else none
  | .Other _ => some .Invalid

/-- The address loop of `resolve_packet`: skip addresses that are loopback
while `allow_loopback` is off or private while `allow_private` is off; the
first remaining address becomes the `Valid` target with the host rewritten
to its literal form; an exhausted list is `NoResolvedAddrs`. -/
def find_valid_addr (cfg : WispConfig) (t : StreamType) (port : Nat) :
    List IpAddr → ResolvedStream
  | [] => .NoResolvedAddrs
  | addr :: rest =>
    if addr.is_loopback && !cfg.allow_loopback then
      find_valid_addr cfg t port rest
    else if is_private addr && !cfg.allow_private then
      find_valid_addr cfg t port rest
    else
      .Valid { stream_type := t, port := port, host := .ip addr }

/-- `resolve_packet` from `src/wisp/stream.rs`.  The resolver is passed as
a function from hostname to resolution outcome (error or list of
addresses, as `Resolver::resolve`). -/
def resolve_packet (resolver : String → Except Unit (List IpAddr))
    (packet : ConnectPacket) (cfg : WispConfig) : Except Unit ResolvedStream :=
  match type_blocked packet.stream_type cfg with
  | some r => .ok r
  | none =>
    if cfg.is_port_blocked packet.port then .ok .Blocked
    else
      match packet.host with
      | .ip ip =>
        if ip.is_loopback && !cfg.allow_loopback then .ok .Blocked
        else if is_private ip && !cfg.allow_private then .ok .Blocked
        else .ok (.Valid packet)
      | .name s => (resolver s).map (find_valid_addr cfg packet.stream_type packet.port)

/-- The hostnames `resolve_packet` submits to the resolver, read off the
same control flow: none on the early-return branches, the packet host
exactly when the hostname-resolution branch is reached. -/
def resolve_packet_dns_queries (packet : ConnectPacket) (cfg : WispConfig) :
    List String :=
  match type_blocked packet.stream_type cfg with
  | some _ => []
  | none =>
    if cfg.is_port_blocked packet.port then []
    else
      match packet.host with
      | .ip _ => []
      | .name s => [s]

/-- Modelled from the spec: `wisp_mux::packet::CloseReason` (the wisp-mux
packet module is not part of the sources here); the variants enumerated by
spec section 3 ClosePayload. -/
inductive CloseReason where
  | Voluntary
  | Unexpected
  | ServerStreamInvalidInfo
  | ServerStreamUnreachable
  | ServerStreamBlockedAddress
  | ServerStreamConnectionRefused
  | ServerStreamTimeout
  | Unknown (v : Nat)
deriving DecidableEq, Repr

/-- The two variants of `ClientStream` from `src/wisp/stream.rs`, with the
sockets abstracted away. -/
inductive ClientStreamKind where
  | Tcp
  | Udp
deriving DecidableEq, Repr

/-- What the per-stream task of `handle_wisp_inner` does with an accepted
stream: enter a forwarder, or close the stream with a reason. -/
inductive StreamAction where
  | forward (k : ClientStreamKind)
  | closeStream (r : CloseReason)
deriving DecidableEq, Repr

/-- The per-stream dispatch of `handle_wisp_inner`
(`src/wisp/handler.rs` lines 106-148): match on the `resolve_packet`
outcome, connect on `Valid`, otherwise close with the matching reason.
`connect` is `connect_stream` abstracted to its outcome. -/
def handle_stream_outcome (connect : ConnectPacket → Except Unit ClientStreamKind)
    (resolved : Except Unit ResolvedStream) : StreamAction :=
  match resolved with
  | .ok (.Valid p) =>
    match connect p with
    | .ok k => .forward k
    | .error _ => .closeStream .ServerStreamUnreachable
  | .ok .NoResolvedAddrs => .closeStream .ServerStreamUnreachable
  | .ok .Blocked => .closeStream .ServerStreamBlockedAddress
  | .ok .Invalid => .closeStream .ServerStreamInvalidInfo
  | .error _ => .closeStream .ServerStreamUnreachable

/-- One `select!` iteration outcome inside `forward_tcp`: which branch
fired and with what result.  `muxData` carries the bytes from the mux read
side and whether `tcp_write.write_all` succeeds; `tcpRead` carries the
bytes read from TCP (empty list is `Ok(0)`, i.e. EOF) and whether
`mux_write.send` succeeds. -/
inductive TcpEvent where
  | muxData (d : List Nat) (writeOk : Bool)
  | muxErr
  | muxEof
  | tcpRead (d : List Nat) (sendOk : Bool)
  | tcpReadErr
deriving DecidableEq, Repr

/-- How the forwarder loop body ends: `clean` is a `break` (the async
block returns `Ok(())`), `failed` is a `?`-propagated error. -/
inductive LoopExit where
  | clean
  | failed
deriving DecidableEq, Repr

/-- One iteration of the `forward_tcp` loop (`src/wisp/stream.rs` lines
161-191): mux data is written to TCP (`?` on failure); a mux read error or
EOF breaks; `Ok(0)` from TCP breaks; other TCP reads are sent to the mux
(`?` on failure); a TCP read error breaks.  `none` means the loop
continues. -/
def tcp_step : TcpEvent → Option LoopExit
  | .muxData _ writeOk => if writeOk then none else some .failed
  | .muxErr => some .clean
  | .muxEof => some .clean
  | .tcpRead d sendOk =>
    if d = [] then some .clean
    else if sendOk then none else some .failed
  | .tcpReadErr => some .clean

/-- Run a forwarder loop over a sequence of iteration events: the first
terminating event decides the exit; `none` if the events are exhausted
with the loop still running. -/
def forward_loop (step : ε → Option LoopExit) : List ε → Option LoopExit
  | [] => none
  | e :: rest =>
    match step e with
    | some x => some x
    | none => forward_loop step rest

/-- The close emitted after the loop (`src/wisp/stream.rs` lines 197-204):
`Ok` closes `Voluntary`, `Err` closes `Unexpected`. -/
def close_reason_of : Option LoopExit → Option CloseReason
  | some .clean => some .Voluntary
  | some .failed => some .Unexpected
  | none => none

/-- The close reason `forward_tcp` hands to `closer.close` for a given
sequence of loop events. -/
def forward_tcp_close (events : List TcpEvent) : Option CloseReason :=
  close_reason_of (forward_loop tcp_step events)

/-- One `select!` iteration outcome inside `forward_udp`: `muxData`
carries bytes from the mux and whether `socket.send` succeeds; `udpRecv`
carries the received datagram (possibly empty: `Ok(n)` with `n = 0`) and
whether `mux_write.send` succeeds. -/
inductive UdpEvent where
  | muxData (d : List Nat) (sendOk : Bool)
  | muxErr
  | muxEof
  | udpRecv (d : List Nat) (sendOk : Bool)
  | udpRecvErr
deriving DecidableEq, Repr

/-- One iteration of the `forward_udp` loop (`src/wisp/stream.rs` lines
220-248).  Unlike TCP, `Ok(n)` from `recv` is forwarded for every `n`,
with no zero-length break; a recv error breaks. -/
def udp_step : UdpEvent → Option LoopExit
  | .muxData _ sendOk => if sendOk then none else some .failed
  | .muxErr => some .clean
  | .muxEof => some .clean
  | .udpRecv _ sendOk => if sendOk then none else some .failed
  | .udpRecvErr => some .clean

/-- Run the `forward_udp` loop, also collecting the DATA frames it sends
to the mux (the `Bytes::copy_from_slice(&udp_buf[..n])` payloads). -/
def udp_run : List UdpEvent → Option LoopExit × List (List Nat)
  | [] => (none, [])
  | e :: rest =>
    match udp_step e with
    | some x => (some x, [])
    | none =>
      let t := udp_run rest
      match e with
      | .udpRecv d _ => (t.1, d :: t.2)
      | _ => t

/-- The close reason `forward_udp` hands to `closer.close`. -/
def forward_udp_close (events : List UdpEvent) : Option CloseReason :=
  close_reason_of (forward_loop udp_step events)

/-- A token standing for a successfully read system resolver
configuration (`read_system_conf`'s `(config, opts)`). -/
structure SystemConf where
  id : Nat
deriving DecidableEq, Repr

/-- The `Resolver` chosen by `init_resolver` (`src/wisp/resolver.rs`):
`Hickory` built from the system configuration, `Hickory` built from
explicitly configured nameservers, or the OS `System` resolver. -/
inductive Resolver where
  | HickoryFromSystemConf (conf : SystemConf)
  | HickoryFromServers (servers : List IpAddr)
  | System
deriving DecidableEq, Repr

/-- `init_resolver` from `src/wisp/resolver.rs`, with the outcome of
`read_system_conf` passed in.  Returns the chosen resolver and whether a
warning was logged. -/
def init_resolver (read_system_conf : Except Unit SystemConf)
    (dns_servers : List DnsEntry) : Resolver × Bool :=
  if dns_servers.isEmpty then
    match read_system_conf with
    | .ok conf => (.HickoryFromSystemConf conf, false)
    | .error _ => (.System, true)
  else
    let servers := dns_servers.filterMap DnsEntry.parse
    if servers.isEmpty then (.System, true)
    else (.HickoryFromServers servers, false)

/-- `PollNext` from `crates/wisp-mux/src/unfair_select.rs`. -/
inductive PollNext where
  | Left
  | Right
deriving DecidableEq, Repr

/-- `PollNext::other`. -/
def PollNext.other : PollNext → PollNext
  | .Left => .Right
  | .Right => .Left

/-- `PollNext::toggle`: returns the old value and the new stored value. -/
def PollNext.toggle (p : PollNext) : PollNext × PollNext :=
  (p, p.other)

/-- The readiness of one `poll_next` call (`std::task::Poll` over the
stream item: `Ready (some item)`, `Ready none` for EOF, or `Pending`). -/
inductive Poll (α : Type) where
  | Ready (a : α)
  | Pending
deriving DecidableEq, Repr

/-- The `UnfairSelect` state: the two source-stream states, the latched
bias `next`, and the `finished` fuse. -/
structure UnfairSelect (σ1 σ2 : Type) where
  s1 : σ1
  s2 : σ2
  next : PollNext
  finished : Bool

/-- `FusedStream::is_terminated` for `UnfairSelect`. -/
def UnfairSelect.is_terminated (st : UnfairSelect σ1 σ2) : Bool :=
  st.finished

/-- `poll_side`: poll the chosen side's source stream, updating only that
side's state.  Source streams are state-transition functions
`σ → Poll (Option α) × σ` (a poll may mutate the stream). -/
def poll_side (p1 : σ1 → Poll (Option α) × σ1) (p2 : σ2 → Poll (Option α) × σ2)
    (st : UnfairSelect σ1 σ2) (side : PollNext) :
    Poll (Option α) × UnfairSelect σ1 σ2 :=
  match side with
  | .Left =>
    let r := p1 st.s1
    (r.1, { st with s1 := r.2 })
  | .Right =>
    let r := p2 st.s2
    (r.1, { st with s2 := r.2 })

/-- `poll_inner`: poll the chosen side; an item returns at once, EOF sets
`finished`; on `Pending` poll the other side, where EOF also sets
`finished` and any other outcome is returned as is. -/
def poll_inner (p1 : σ1 → Poll (Option α) × σ1) (p2 : σ2 → Poll (Option α) × σ2)
    (st : UnfairSelect σ1 σ2) (side : PollNext) :
    Poll (Option α) × UnfairSelect σ1 σ2 :=
  let r := poll_side p1 p2 st side
  match r.1 with
  | .Ready (some item) => (.Ready (some item), r.2)
  | .Ready none => (.Ready none, { r.2 with finished := true })
  | .Pending =>
    let r2 := poll_side p1 p2 r.2 side.other
    match r2.1 with
    | .Ready none => (.Ready none, { r2.2 with finished := true })
    | a => (a, r2.2)

/-- `Stream::poll_next` for `UnfairSelect`: toggle the bias first; if the
fuse is set return EOF, otherwise run `poll_inner` on the side the old
bias chose. -/
def UnfairSelect.poll_next (p1 : σ1 → Poll (Option α) × σ1)
    (p2 : σ2 → Poll (Option α) × σ2) (st : UnfairSelect σ1 σ2) :
    Poll (Option α) × UnfairSelect σ1 σ2 :=
  let t := st.next.toggle
  let st1 := { st with next := t.2 }
  if st1.finished then (.Ready none, st1)
  else poll_inner p1 p2 st1 t.1

/-- A loopback address satisfies `is_private`: `ipv4_is_private` and
`ipv6_is_private` both contain an `is_loopback` disjunct. -/
theorem is_loopback_implies_is_private (ip : IpAddr) (h : ip.is_loopback = true) :
    is_private ip = true := by
  cases ip with
  | V4 v =>
    simp only [IpAddr.is_loopback] at h
    simp [is_private, ipv4_is_private, h]
  | V6 v =>
    simp only [IpAddr.is_loopback] at h
    simp [is_private, ipv6_is_private, h]

/-- A stream type passing the allow flags makes the opening check of
`resolve_packet` fall through. -/
theorem type_blocked_none (t : StreamType) (cfg : WispConfig)
    (htype : (t = .Tcp ∧ cfg.allow_tcp = true) ∨ (t = .Udp ∧ cfg.allow_udp = true)) :
    type_blocked t cfg = none := by
  rcases htype with ⟨h1, h2⟩ | ⟨h1, h2⟩ <;> subst h1 <;> simp [type_blocked, h2]

/-- C1: a CONNECT whose port lies in a configured blocked range (and whose
stream type passes the allow_tcp/allow_udp check) is classified `Blocked`
by `resolve_packet`, for every resolver, and no hostname is submitted for
DNS resolution. -/
theorem resolve_packet_blocked_port_no_dns
    (resolver : String → Except Unit (List IpAddr))
    (packet : ConnectPacket) (cfg : WispConfig)
    (htype : (packet.stream_type = .Tcp ∧ cfg.allow_tcp = true) ∨
             (packet.stream_type = .Udp ∧ cfg.allow_udp = true))
    (hport : cfg.is_port_blocked packet.port = true) :
    resolve_packet resolver packet cfg = .ok .Blocked ∧
    resolve_packet_dns_queries packet cfg = [] := by
  have ht := type_blocked_none packet.stream_type cfg htype
  constructor <;> simp [resolve_packet, resolve_packet_dns_queries, ht, hport]

/-- Witness for C1: TCP to port 22 (SSH) under the default configuration. -/
theorem resolve_packet_blocked_port_no_dns_witness :
    resolve_packet (fun _ => .error ())
        ⟨.Tcp, 22, .name "example.com"⟩ default_config = .ok .Blocked ∧
    resolve_packet_dns_queries ⟨.Tcp, 22, .name "example.com"⟩ default_config = [] :=
  resolve_packet_blocked_port_no_dns _ _ _ (Or.inl ⟨rfl, rfl⟩) (by decide)

/-- C5: for an IP-literal host passing the earlier checks, a loopback
literal is `Blocked` when `allow_loopback` is off, and a literal passing
both the loopback and private checks is passed through unchanged as
`Valid`. -/
theorem resolve_packet_ip_literal
    (resolver : String → Except Unit (List IpAddr))
    (packet : ConnectPacket) (cfg : WispConfig) (ip : IpAddr)
    (htype : (packet.stream_type = .Tcp ∧ cfg.allow_tcp = true) ∨
             (packet.stream_type = .Udp ∧ cfg.allow_udp = true))
    (hport : cfg.is_port_blocked packet.port = false)
    (hhost : packet.host = .ip ip) :
    (ip.is_loopback = true → cfg.allow_loopback = false →
      resolve_packet resolver packet cfg = .ok .Blocked) ∧
    ((ip.is_loopback && !cfg.allow_loopback) = false →
     (is_private ip && !cfg.allow_private) = false →
      resolve_packet resolver packet cfg = .ok (.Valid packet)) := by
  have ht := type_blocked_none packet.stream_type cfg htype
  constructor
  · intro hl ha
    simp [resolve_packet, ht, hport, hhost, hl, ha]
  · intro h1 h2
    simp [resolve_packet, ht, hport, hhost, h1, h2]

/-- Witness for C5: the literal `::1` with `allow_loopback = false` is
blocked, and the public literal 93.184.216.34 passes through unchanged. -/
theorem resolve_packet_ip_literal_witness :
    resolve_packet (fun _ => .error ())
        ⟨.Tcp, 443, .ip (.V6 ⟨0, 0, 0, 0, 0, 0, 0, 1⟩)⟩ default_config = .ok .Blocked ∧
    resolve_packet (fun _ => .error ())
        ⟨.Tcp, 443, .ip (.V4 ⟨93, 184, 216, 34⟩)⟩ default_config =
      .ok (.Valid ⟨.Tcp, 443, .ip (.V4 ⟨93, 184, 216, 34⟩)⟩) :=
  ⟨(resolve_packet_ip_literal (fun _ => .error ()) _ default_config _
      (Or.inl ⟨rfl, rfl⟩) (by decide) rfl).1 (by decide) rfl,
   (resolve_packet_ip_literal (fun _ => .error ()) _ default_config _
      (Or.inl ⟨rfl, rfl⟩) (by decide) rfl).2 (by decide) (by decide)⟩

/-- C9: a loopback IP literal is `Blocked` whenever `allow_private` is
off, even with `allow_loopback` on, because `is_private` also holds for
loopback addresses. -/
theorem resolve_packet_loopback_blocked_by_private
    (resolver : String → Except Unit (List IpAddr))
    (packet : ConnectPacket) (cfg : WispConfig) (ip : IpAddr)
    (htype : (packet.stream_type = .Tcp ∧ cfg.allow_tcp = true) ∨
             (packet.stream_type = .Udp ∧ cfg.allow_udp = true))
    (hport : cfg.is_port_blocked packet.port = false)
    (hhost : packet.host = .ip ip)
    (hloop : ip.is_loopback = true)
    (hpriv : cfg.allow_private = false) :
    is_private ip = true ∧ resolve_packet resolver packet cfg = .ok .Blocked := by
  have ht := type_blocked_none packet.stream_type cfg htype
  have hp := is_loopback_implies_is_private ip hloop
  refine ⟨hp, ?_⟩
  cases hal : cfg.allow_loopback with
  | false => simp [resolve_packet, ht, hport, hhost, hloop, hal]
  | true => simp [resolve_packet, ht, hport, hhost, hloop, hal, hp, hpriv]

/-- Witness for C9: 127.0.0.1 with `allow_loopback = true` but
`allow_private = false` is still blocked. -/
theorem resolve_packet_loopback_blocked_by_private_witness :
    is_private (.V4 ⟨127, 0, 0, 1⟩) = true ∧
    resolve_packet (fun _ => .error ())
        ⟨.Tcp, 443, .ip (.V4 ⟨127, 0, 0, 1⟩)⟩
        { default_config with allow_loopback := true, allow_private := false } =
      .ok .Blocked :=
  resolve_packet_loopback_blocked_by_private _ _ _ _
    (Or.inl ⟨rfl, rfl⟩) (by decide) rfl (by decide) rfl

/-- The filter an address must pass in the resolution loop: not loopback
while `allow_loopback` is off, not private while `allow_private` is off. -/
def addr_allowed (cfg : WispConfig) (addr : IpAddr) : Bool :=
  !(addr.is_loopback && !cfg.allow_loopback) && !(is_private addr && !cfg.allow_private)

/-- The resolution loop picks the first address passing `addr_allowed`. -/
theorem find_valid_addr_eq_find (cfg : WispConfig) (t : StreamType) (port : Nat)
    (addrs : List IpAddr) :
    find_valid_addr cfg t port addrs =
      match addrs.find? (addr_allowed cfg) with
      | some a => .Valid { stream_type := t, port := port, host := .ip a }
      | none => .NoResolvedAddrs := by
  induction addrs with
  | nil => rfl
  | cons a rest ih =>
    by_cases h1 : (a.is_loopback && !cfg.allow_loopback) = true
    · rw [show (a :: rest).find? (addr_allowed cfg) = rest.find? (addr_allowed cfg) from
        List.find?_cons_of_neg _ (by simp [addr_allowed, h1])]
      simpa [find_valid_addr, h1] using ih
    · by_cases h2 : (is_private a && !cfg.allow_private) = true
      · rw [show (a :: rest).find? (addr_allowed cfg) = rest.find? (addr_allowed cfg) from
          List.find?_cons_of_neg _ (by simp [addr_allowed, h1, h2])]
        simpa [find_valid_addr, h1, h2] using ih
      · rw [List.find?_cons_of_pos _ (by simp [addr_allowed, h1, h2])]
        simp [find_valid_addr, h1, h2]

/-- C2: for a hostname host passing the earlier checks, `resolve_packet`
resolves it and returns `Valid` with the host rewritten to the first
resolved address passing the loopback/private filters (stream type and
port preserved), or `NoResolvedAddrs` when no address qualifies. -/
theorem resolve_packet_hostname_resolution
    (resolver : String → Except Unit (List IpAddr))
    (packet : ConnectPacket) (cfg : WispConfig) (s : String) (addrs : List IpAddr)
    (htype : (packet.stream_type = .Tcp ∧ cfg.allow_tcp = true) ∨
             (packet.stream_type = .Udp ∧ cfg.allow_udp = true))
    (hport : cfg.is_port_blocked packet.port = false)
    (hhost : packet.host = .name s)
    (hres : resolver s = .ok addrs) :
    resolve_packet resolver packet cfg =
      .ok (match addrs.find? (addr_allowed cfg) with
        | some a => .Valid { stream_type := packet.stream_type,
                             port := packet.port, host := .ip a }
        | none => .NoResolvedAddrs) := by
  have ht := type_blocked_none packet.stream_type cfg htype
  rw [show resolve_packet resolver packet cfg =
      .ok (find_valid_addr cfg packet.stream_type packet.port addrs) by
    simp [resolve_packet, ht, hport, hhost, hres, Except.map]]
  rw [find_valid_addr_eq_find]

/-- Witness for C2: `dns.example` resolving to a private then a public
address with `allow_private = false` skips the private one and rewrites
the host to the public literal (spec scenario 3); with only filtered
addresses the result is `NoResolvedAddrs`. -/
theorem resolve_packet_hostname_resolution_witness :
    resolve_packet
        (fun _ => .ok [.V4 ⟨10, 0, 0, 5⟩, .V4 ⟨93, 184, 216, 34⟩])
        ⟨.Udp, 53, .name "dns.example"⟩
        { default_config with allow_private := false } =
      .ok (.Valid ⟨.Udp, 53, .ip (.V4 ⟨93, 184, 216, 34⟩)⟩) ∧
    resolve_packet (fun _ => .ok [.V4 ⟨10, 0, 0, 5⟩])
        ⟨.Udp, 53, .name "dns.example"⟩
        { default_config with allow_private := false } =
      .ok .NoResolvedAddrs :=
  ⟨resolve_packet_hostname_resolution _ _ _ "dns.example" _
      (Or.inr ⟨rfl, rfl⟩) (by decide) rfl rfl,
   resolve_packet_hostname_resolution _ _ _ "dns.example" _
      (Or.inr ⟨rfl, rfl⟩) (by decide) rfl rfl⟩

/-- C6: the per-stream dispatch closes with `ServerStreamUnreachable` on a
connect failure or an empty resolution, with `ServerStreamBlockedAddress`
on a policy `Blocked`, and with `ServerStreamInvalidInfo` on `Invalid`. -/
theorem handle_stream_close_reasons
    (connect : ConnectPacket → Except Unit ClientStreamKind)
    (p : ConnectPacket) (hconn : connect p = .error ()) :
    handle_stream_outcome connect (.ok (.Valid p)) =
      .closeStream .ServerStreamUnreachable ∧
    handle_stream_outcome connect (.ok .NoResolvedAddrs) =
      .closeStream .ServerStreamUnreachable ∧
    handle_stream_outcome connect (.ok .Blocked) =
      .closeStream .ServerStreamBlockedAddress ∧
    handle_stream_outcome connect (.ok .Invalid) =
      .closeStream .ServerStreamInvalidInfo := by
  refine ⟨?_, rfl, rfl, rfl⟩
  simp [handle_stream_outcome, hconn]

/-- Witness for C6: a connector that fails on the concrete packet. -/
theorem handle_stream_close_reasons_witness :
    handle_stream_outcome (fun _ => .error ())
        (.ok (.Valid ⟨.Tcp, 80, .ip (.V4 ⟨93, 184, 216, 34⟩)⟩)) =
      .closeStream .ServerStreamUnreachable ∧
    handle_stream_outcome (fun _ => .error ()) (.ok .NoResolvedAddrs) =
      .closeStream .ServerStreamUnreachable ∧
    handle_stream_outcome (fun _ => .error ()) (.ok .Blocked) =
      .closeStream .ServerStreamBlockedAddress ∧
    handle_stream_outcome (fun _ => .error ()) (.ok .Invalid) =
      .closeStream .ServerStreamInvalidInfo :=
  handle_stream_close_reasons (fun _ => .error ()) _ rfl

/-- The resolution loop never classifies a request `Invalid`. -/
theorem find_valid_addr_ne_invalid (cfg : WispConfig) (t : StreamType) (port : Nat)
    (addrs : List IpAddr) : find_valid_addr cfg t port addrs ≠ .Invalid := by
  induction addrs with
  | nil => simp [find_valid_addr]
  | cons a rest ih =>
    by_cases h1 : (a.is_loopback && !cfg.allow_loopback) = true
    · simpa [find_valid_addr, h1] using ih
    · by_cases h2 : (is_private a && !cfg.allow_private) = true
      · simpa [find_valid_addr, h1, h2] using ih
      · simp [find_valid_addr, h1, h2]

/-- C8 counterexample: under the default configuration a TCP CONNECT with
an empty host is not classified `Invalid`: the empty string does not
parse as an IP literal, so `resolve_packet` submits it for DNS
resolution; with a resolver that errors on it the stream is closed with
`ServerStreamUnreachable`, not `ServerStreamInvalidInfo`. -/
theorem resolve_packet_empty_host_cex :
    resolve_packet (fun _ => .error ())
        ⟨.Tcp, 80, .name ""⟩ default_config = .error () ∧
    resolve_packet_dns_queries ⟨.Tcp, 80, .name ""⟩ default_config = [""] ∧
    handle_stream_outcome (fun _ => .error ())
        (resolve_packet (fun _ => .error ()) ⟨.Tcp, 80, .name ""⟩ default_config) =
      .closeStream .ServerStreamUnreachable ∧
    StreamAction.closeStream .ServerStreamUnreachable ≠
      StreamAction.closeStream .ServerStreamInvalidInfo := by
  refine ⟨rfl, rfl, rfl, by decide⟩

/-- C8 amended: an empty host string is not special-cased: it goes to
hostname resolution and is never classified `Invalid`; when that
resolution errors or yields no addresses the stream is closed with
`ServerStreamUnreachable`. -/
theorem resolve_packet_empty_host_amended
    (resolver : String → Except Unit (List IpAddr))
    (connect : ConnectPacket → Except Unit ClientStreamKind)
    (cfg : WispConfig) (t : StreamType) (port : Nat)
    (htype : (t = .Tcp ∧ cfg.allow_tcp = true) ∨ (t = .Udp ∧ cfg.allow_udp = true))
    (hport : cfg.is_port_blocked port = false) :
    resolve_packet resolver ⟨t, port, .name ""⟩ cfg ≠ .ok .Invalid ∧
    (resolver "" = .error () →
      handle_stream_outcome connect
          (resolve_packet resolver ⟨t, port, .name ""⟩ cfg) =
        .closeStream .ServerStreamUnreachable) ∧
    (resolver "" = .ok [] →
      handle_stream_outcome connect
          (resolve_packet resolver ⟨t, port, .name ""⟩ cfg) =
        .closeStream .ServerStreamUnreachable) := by
  have ht := type_blocked_none t cfg htype
  refine ⟨?_, ?_, ?_⟩
  · cases hres : resolver "" with
    | error e =>
      simp [resolve_packet, ht, hport, hres, Except.map]
    | ok addrs =>
      have heq : resolve_packet resolver ⟨t, port, .name ""⟩ cfg =
          .ok (find_valid_addr cfg t port addrs) := by
        simp [resolve_packet, ht, hport, hres, Except.map]
      rw [heq]
      intro hcontra
      injection hcontra with h
      exact find_valid_addr_ne_invalid cfg t port addrs h
  · intro hres
    simp [resolve_packet, ht, hport, hres, Except.map, handle_stream_outcome]
  · intro hres
    simp [resolve_packet, ht, hport, hres, Except.map, handle_stream_outcome,
      find_valid_addr]

/-- Witness for the amended C8 at a concrete erroring resolver. -/
theorem resolve_packet_empty_host_amended_witness :
    resolve_packet (fun _ => .error ()) ⟨.Tcp, 80, .name ""⟩ default_config ≠
      .ok .Invalid ∧
    handle_stream_outcome (fun _ => .error ())
        (resolve_packet (fun _ => .error ()) ⟨.Tcp, 80, .name ""⟩ default_config) =
      .closeStream .ServerStreamUnreachable :=
  ⟨(resolve_packet_empty_host_amended (fun _ => .error ()) (fun _ => .error ())
      default_config .Tcp 80 (Or.inl ⟨rfl, rfl⟩) (by decide)).1,
   (resolve_packet_empty_host_amended (fun _ => .error ()) (fun _ => .error ())
      default_config .Tcp 80 (Or.inl ⟨rfl, rfl⟩) (by decide)).2.1 rfl⟩

/-- Iterations whose step continues do not decide the loop exit. -/
theorem forward_loop_append_skip (step : ε → Option LoopExit)
    (pre l : List ε) (hpre : ∀ x ∈ pre, step x = none) :
    forward_loop step (pre ++ l) = forward_loop step l := by
  induction pre with
  | nil => rfl
  | cons e rest ih =>
    have he : step e = none := hpre e (by simp)
    simp only [List.cons_append, forward_loop, he]
    exact ih (fun x hx => hpre x (by simp [hx]))

/-- C3 counterexample: a TCP read error mid-stream (after a successful
mux-to-TCP copy) makes `forward_tcp` close with `Voluntary`, not
`Unexpected` — the read-error arm `break`s out of the `Ok` path. -/
theorem forward_tcp_read_error_cex :
    forward_tcp_close [.muxData [104, 105] true, .tcpReadErr] =
      some .Voluntary ∧
    some CloseReason.Voluntary ≠ some CloseReason.Unexpected :=
  ⟨rfl, by decide⟩

/-- C3 amended: the loop exits on mux EOF, mux read error, TCP EOF
(`read` returns 0) or TCP read error, closing `Voluntary` in all four
cases; a failed write — `write_all` to TCP or `send` to the mux —
propagates as an error and closes `Unexpected`.  The first such event
decides the close reason. -/
theorem forward_tcp_close_amended
    (pre rest : List TcpEvent) (d : List Nat) (b : Bool)
    (hpre : ∀ x ∈ pre, tcp_step x = none) :
    forward_tcp_close (pre ++ .muxEof :: rest) = some .Voluntary ∧
    forward_tcp_close (pre ++ .muxErr :: rest) = some .Voluntary ∧
    forward_tcp_close (pre ++ .tcpReadErr :: rest) = some .Voluntary ∧
    forward_tcp_close (pre ++ .tcpRead [] b :: rest) = some .Voluntary ∧
    (d ≠ [] → forward_tcp_close (pre ++ .tcpRead d false :: rest) =
      some .Unexpected) ∧
    forward_tcp_close (pre ++ .muxData d false :: rest) = some .Unexpected := by
  refine ⟨?_, ?_, ?_, ?_, fun hd => ?_, ?_⟩ <;>
    simp [forward_tcp_close, forward_loop_append_skip tcp_step pre _ hpre,
      forward_loop, tcp_step, close_reason_of, *]

/-- Witness for the amended C3: one successful copy in each direction,
then each terminating event at a concrete input. -/
theorem forward_tcp_close_amended_witness :
    forward_tcp_close [.muxData [1] true, .muxEof] = some .Voluntary ∧
    forward_tcp_close [.muxData [1] true, .muxErr] = some .Voluntary ∧
    forward_tcp_close [.muxData [1] true, .tcpReadErr] = some .Voluntary ∧
    forward_tcp_close [.muxData [1] true, .tcpRead [] true] = some .Voluntary ∧
    forward_tcp_close [.muxData [1] true, .tcpRead [2] false] = some .Unexpected ∧
    forward_tcp_close [.muxData [1] true, .muxData [3] false] = some .Unexpected := by
  have h := forward_tcp_close_amended [.muxData [1] true] [] [2] true
    (by intro x hx; simp at hx; subst hx; rfl)
  have h2 := forward_tcp_close_amended [.muxData [1] true] [] [3] true
    (by intro x hx; simp at hx; subst hx; rfl)
  exact ⟨h.1, h.2.1, h.2.2.1, h.2.2.2.1, h.2.2.2.2.1 (by decide), h2.2.2.2.2.2⟩

/-- C10: a zero-length datagram does not terminate the UDP forwarder:
the empty DATA frame is sent to the mux and the loop continues, while in
the TCP forwarder a read returning 0 bytes exits the loop as EOF and
closes `Voluntary`. -/
theorem forward_udp_empty_datagram (rest : List UdpEvent)
    (rest2 : List TcpEvent) (b : Bool) :
    udp_step (.udpRecv [] true) = none ∧
    udp_run (.udpRecv [] true :: rest) =
      ((udp_run rest).1, [] :: (udp_run rest).2) ∧
    forward_udp_close (.udpRecv [] true :: rest) = forward_udp_close rest ∧
    tcp_step (.tcpRead [] b) = some .clean ∧
    forward_tcp_close (.tcpRead [] b :: rest2) = some .Voluntary := by
  refine ⟨rfl, ?_, ?_, ?_, ?_⟩
  · simp [udp_run, udp_step]
  · simp [forward_udp_close, forward_loop, udp_step]
  · simp [tcp_step]
  · simp [forward_tcp_close, forward_loop, tcp_step, close_reason_of]

/-- C7: `init_resolver` with an empty list follows the outcome of reading
the system resolver configuration, falling back to `System` (with a
warning) on failure; a non-empty list with no parseable entry selects
`System` with a warning; a list with parseable entries selects the
recursive Hickory resolver configured with exactly the entries that
parse as IPs. -/
theorem init_resolver_spec (rc : Except Unit SystemConf) (ds : List DnsEntry) :
    (ds = [] → init_resolver rc ds =
       match rc with
       | .ok conf => (.HickoryFromSystemConf conf, false)
       | .error _ => (.System, true)) ∧
    (ds ≠ [] → ds.filterMap DnsEntry.parse = [] →
       init_resolver rc ds = (.System, true)) ∧
    (ds ≠ [] → ds.filterMap DnsEntry.parse ≠ [] →
       init_resolver rc ds =
         (.HickoryFromServers (ds.filterMap DnsEntry.parse), false)) := by
  refine ⟨fun h => ?_, fun h hp => ?_, fun h hp => ?_⟩
  · subst h
    cases rc <;> rfl
  · simp [init_resolver, List.isEmpty_iff, h, hp]
  · simp [init_resolver, List.isEmpty_iff, h, hp]

/-- Witness for C7: the three initialisation cases at concrete inputs —
failed system-configuration read with an empty list, an all-unparseable
list, and a mixed list keeping only the parseable IP. -/
theorem init_resolver_spec_witness :
    init_resolver (.error ()) [] = (.System, true) ∧
    init_resolver (.ok ⟨0⟩) [.invalid "bogus"] = (.System, true) ∧
    init_resolver (.ok ⟨0⟩) [.invalid "bogus", .ip (.V4 ⟨1, 1, 1, 1⟩)] =
      (.HickoryFromServers [.V4 ⟨1, 1, 1, 1⟩], false) :=
  ⟨(init_resolver_spec (.error ()) []).1 rfl,
   (init_resolver_spec (.ok ⟨0⟩) [.invalid "bogus"]).2.1
     (by simp) (by simp [DnsEntry.parse]),
   (init_resolver_spec (.ok ⟨0⟩) [.invalid "bogus", .ip (.V4 ⟨1, 1, 1, 1⟩)]).2.2
     (by simp) (by simp [DnsEntry.parse])⟩


/-- Closed form of one `poll_next` call: the bias always toggles; a set
fuse returns EOF at once; otherwise the side the old bias chose is
polled first, an item or EOF from it is final (EOF sets the fuse), and on
pending the other side is polled, its EOF also setting the fuse. -/
theorem poll_next_closed_form (p1 : σ1 → Poll (Option α) × σ1)
    (p2 : σ2 → Poll (Option α) × σ2) (s1 : σ1) (s2 : σ2)
    (next : PollNext) (fin : Bool) :
    UnfairSelect.poll_next p1 p2 ⟨s1, s2, next, fin⟩ =
      if fin then (.Ready none, ⟨s1, s2, next.other, fin⟩)
      else
        match next with
        | .Left =>
          match (p1 s1).1 with
          | .Ready (some x) => (.Ready (some x), ⟨(p1 s1).2, s2, .Right, false⟩)
          | .Ready none => (.Ready none, ⟨(p1 s1).2, s2, .Right, true⟩)
          | .Pending =>
            match (p2 s2).1 with
            | .Ready (some x) =>
              (.Ready (some x), ⟨(p1 s1).2, (p2 s2).2, .Right, false⟩)
            | .Ready none => (.Ready none, ⟨(p1 s1).2, (p2 s2).2, .Right, true⟩)
            | .Pending => (.Pending, ⟨(p1 s1).2, (p2 s2).2, .Right, false⟩)
        | .Right =>
          match (p2 s2).1 with
          | .Ready (some x) => (.Ready (some x), ⟨s1, (p2 s2).2, .Left, false⟩)
          | .Ready none => (.Ready none, ⟨s1, (p2 s2).2, .Left, true⟩)
          | .Pending =>
            match (p1 s1).1 with
            | .Ready (some x) =>
              (.Ready (some x), ⟨(p1 s1).2, (p2 s2).2, .Left, false⟩)
            | .Ready none => (.Ready none, ⟨(p1 s1).2, (p2 s2).2, .Left, true⟩)
            | .Pending => (.Pending, ⟨(p1 s1).2, (p2 s2).2, .Left, false⟩) := by
  cases fin with
  | true => cases next <;> rfl
  | false =>
    cases next with
    | Left =>
      cases h1 : (p1 s1).1 with
      | Ready a =>
        cases a <;>
          simp [UnfairSelect.poll_next, PollNext.toggle, PollNext.other,
            poll_inner, poll_side, h1]
      | Pending =>
        cases h2 : (p2 s2).1 with
        | Ready a =>
          cases a <;>
            simp [UnfairSelect.poll_next, PollNext.toggle, PollNext.other,
              poll_inner, poll_side, h1, h2]
        | Pending =>
          simp [UnfairSelect.poll_next, PollNext.toggle, PollNext.other,
            poll_inner, poll_side, h1, h2]
    | Right =>
      cases h2 : (p2 s2).1 with
      | Ready a =>
        cases a <;>
          simp [UnfairSelect.poll_next, PollNext.toggle, PollNext.other,
            poll_inner, poll_side, h2]
      | Pending =>
        cases h1 : (p1 s1).1 with
        | Ready a =>
          cases a <;>
            simp [UnfairSelect.poll_next, PollNext.toggle, PollNext.other,
              poll_inner, poll_side, h1, h2]
        | Pending =>
          simp [UnfairSelect.poll_next, PollNext.toggle, PollNext.other,
            poll_inner, poll_side, h1, h2]

/-- C4: each `poll_next` toggles the latched bias and polls the side the
old bias chose first; an item from that side is returned at once with
only that side's stream state advanced; EOF from that side — or, when it
is pending, EOF from the other side — terminates the merged stream: EOF
is returned and `finished` latches, so `is_terminated` holds.  Once
`finished` is set the stream is fused: every poll returns EOF without
polling either source and leaves the fuse set. -/
theorem unfair_select_poll_next_spec (p1 : σ1 → Poll (Option α) × σ1)
    (p2 : σ2 → Poll (Option α) × σ2) (st : UnfairSelect σ1 σ2) :
    ((UnfairSelect.poll_next p1 p2 st).2.next = st.next.other) ∧
    (st.finished = true →
       UnfairSelect.poll_next p1 p2 st =
         (.Ready none, { st with next := st.next.other }) ∧
       st.is_terminated = true) ∧
    (st.finished = false →
      (∀ x, (poll_side p1 p2 st st.next).1 = .Ready (some x) →
         UnfairSelect.poll_next p1 p2 st =
           (.Ready (some x),
            { (poll_side p1 p2 st st.next).2 with next := st.next.other })) ∧
      ((poll_side p1 p2 st st.next).1 = .Ready none →
         (UnfairSelect.poll_next p1 p2 st).1 = .Ready none ∧
         (UnfairSelect.poll_next p1 p2 st).2.finished = true ∧
         (UnfairSelect.poll_next p1 p2 st).2.is_terminated = true) ∧
      ((poll_side p1 p2 st st.next).1 = .Pending →
       (poll_side p1 p2 st st.next.other).1 = .Ready none →
         (UnfairSelect.poll_next p1 p2 st).1 = .Ready none ∧
         (UnfairSelect.poll_next p1 p2 st).2.finished = true ∧
         (UnfairSelect.poll_next p1 p2 st).2.is_terminated = true)) := by
  obtain ⟨s1, s2, next, fin⟩ := st
  have hcf := poll_next_closed_form p1 p2 s1 s2 next fin
  cases fin with
  | true =>
    refine ⟨?_, fun _ => ⟨?_, rfl⟩, fun hfin => absurd hfin (by simp)⟩
    · rw [hcf]; rfl
    · rw [hcf]; rfl
  | false =>
    refine ⟨?_, fun hfin => absurd hfin (by simp),
      fun _ => ⟨fun x hx => ?_, fun hx => ?_, fun hx hy => ?_⟩⟩
    · rw [hcf]
      cases next with
      | Left =>
        cases h1 : (p1 s1).1 with
        | Ready a => cases a <;> rfl
        | Pending =>
          cases h2 : (p2 s2).1 with
          | Ready a => cases a <;> rfl
          | Pending => rfl
      | Right =>
        cases h2 : (p2 s2).1 with
        | Ready a => cases a <;> rfl
        | Pending =>
          cases h1 : (p1 s1).1 with
          | Ready a => cases a <;> rfl
          | Pending => rfl
    · cases next with
      | Left =>
        simp only [poll_side] at hx ⊢
        rw [hcf, hx]
        rfl
      | Right =>
        simp only [poll_side] at hx ⊢
        rw [hcf, hx]
        rfl
    · cases next with
      | Left =>
        simp only [poll_side] at hx
        rw [hcf, hx]
        exact ⟨rfl, rfl, rfl⟩
      | Right =>
        simp only [poll_side] at hx
        rw [hcf, hx]
        exact ⟨rfl, rfl, rfl⟩
    · cases next with
      | Left =>
        simp only [poll_side, PollNext.other] at hx hy
        rw [hcf, hx, hy]
        exact ⟨rfl, rfl, rfl⟩
      | Right =>
        simp only [poll_side, PollNext.other] at hx hy
        rw [hcf, hx, hy]
        exact ⟨rfl, rfl, rfl⟩

/-- Witness for C4: with the left source ready with item 7 and the right
source pending, a left-biased fresh select returns the item and toggles
the bias; with the left source at EOF the merged stream terminates. -/
theorem unfair_select_poll_next_spec_witness :
    UnfairSelect.poll_next
        (fun _ : Unit => ((Poll.Ready (some 7) : Poll (Option Nat)), ()))
        (fun _ : Unit => (Poll.Pending, ())) ⟨(), (), .Left, false⟩ =
      (.Ready (some 7), ⟨(), (), .Right, false⟩) ∧
    (UnfairSelect.poll_next
        (fun _ : Unit => ((Poll.Ready (none : Option Nat)), ()))
        (fun _ : Unit => (Poll.Pending, ())) ⟨(), (), .Left, false⟩).1 =
      .Ready none ∧
    (UnfairSelect.poll_next
        (fun _ : Unit => ((Poll.Ready (none : Option Nat)), ()))
        (fun _ : Unit => (Poll.Pending, ())) ⟨(), (), .Left, false⟩).2.is_terminated =
      true :=
  ⟨((unfair_select_poll_next_spec
      (fun _ : Unit => ((Poll.Ready (some 7) : Poll (Option Nat)), ()))
      (fun _ : Unit => (Poll.Pending, ())) ⟨(), (), .Left, false⟩).2.2 rfl).1 7 rfl,
   (((unfair_select_poll_next_spec
      (fun _ : Unit => ((Poll.Ready (none : Option Nat)), ()))
      (fun _ : Unit => (Poll.Pending, ())) ⟨(), (), .Left, false⟩).2.2 rfl).2.1 rfl).1,
   (((unfair_select_poll_next_spec
      (fun _ : Unit => ((Poll.Ready (none : Option Nat)), ()))
      (fun _ : Unit => (Poll.Pending, ())) ⟨(), (), .Left, false⟩).2.2 rfl).2.1 rfl).2.2⟩
